import Mathlib

set_option maxRecDepth 8192

/-!
Verification of the input-classification engine and response selection of the
secure-search application.  The repository holds two variants of the validator:
the current one in src/server.js and an earlier, stricter one (part_003 of the
unnamed sources).  Both are embedded below, faithfully to the JavaScript,
with strings modelled as lists of characters and each regular-expression
pattern modelled as an executable matcher with the exact semantics of the
JavaScript pattern (case folding for the i flag, JavaScript whitespace class,
word boundaries, greedy star and plus over pairwise disjoint character
classes, which makes maximal munch equivalent to backtracking search).
The external DOMPurify sanitizer used by the earlier variant is a third-party
library, not repository code; it is modelled as an explicit function
parameter, which is also how the specification asks for it to be treated
(a pluggable capability behind an interface).
-/

namespace SSDSearch

/-- JavaScript strings are modelled as lists of characters. -/
abbrev Str := List Char

/-- Possible values of the searchTerm field reaching validateInput: null,
undefined (field absent), a string, or any other non-string value
(number, object, array); the code only distinguishes these four shapes. -/
inductive JsValue where
  | nullV : JsValue
  | undefV : JsValue
  | str : Str → JsValue
  | otherV : JsValue

/-- The character class of the JavaScript regex escape for whitespace and of
String.prototype.trim: the eleven characters u2000 to u200a are listed
individually. -/
def jsSpaceChars : Str :=
  [' ', '\t', '\n', '\r', '\u000b', '\u000c', '\u00a0', '\u1680',
   '\u2000', '\u2001', '\u2002', '\u2003', '\u2004', '\u2005', '\u2006',
   '\u2007', '\u2008', '\u2009', '\u200a',
   '\u2028', '\u2029', '\u202f', '\u205f', '\u3000', '\ufeff']

/-- JavaScript whitespace test (the regex class for s, same set as trim). -/
def jsSpace (c : Char) : Bool := jsSpaceChars.contains c

/-- JavaScript word character (the regex class for w): ASCII letters, digits,
underscore. -/
def isWordChar (c : Char) : Bool := c.isAlpha || c.isDigit || c == '_'

/-- Line terminators, the characters not matched by the regex dot. -/
def lineTerm (c : Char) : Bool :=
  c == '\n' || c == '\r' || c == '\u2028' || c == '\u2029'

/-- ASCII lowering, the case folding performed by the i flag of a JavaScript
regex on ASCII pattern characters (Char.toLower maps A-Z to a-z and leaves
everything else unchanged, exactly the canonicalisation for non-unicode
regexes with ASCII-only patterns). -/
def lowerStr (s : Str) : Str := s.map Char.toLower

/-- String.prototype.trim: drop JavaScript whitespace from both ends. -/
def trimJS (s : Str) : Str :=
  ((s.dropWhile jsSpace).reverse.dropWhile jsSpace).reverse

/-- If lit is a literal prefix of s, return the remainder, else none. -/
def stripLit : Str → Str → Option Str
  | [], s => some s
  | _ :: _, [] => none
  | p :: ps, c :: s => if p = c then stripLit ps s else none

/-- Boolean prefix test derived from stripLit. -/
def isPrefixB (lit s : Str) : Bool := (stripLit lit s).isSome

/-- Substring containment: the regex test of a literal pattern. -/
def containsLit (pat : Str) (s : Str) : Bool :=
  match s with
  | [] => isPrefixB pat []
  | _ :: rest => isPrefixB pat s || containsLit pat rest

/-- Greedy plus over a character class: requires at least one matching
character and consumes the maximal run.  For all patterns in the source the
following atom is disjoint from the class, so this equals regex search. -/
def skipPlus (p : Char → Bool) : Str → Option Str
  | [] => none
  | c :: s => if p c then some (s.dropWhile p) else none

/-- Consume one expected character. -/
def chOpt (c : Char) : Str → Option Str
  | [] => none
  | d :: s => if d = c then some s else none

/-- Word-boundary condition on the left of a word character, given the
preceding character (none at the start of the string). -/
def boundaryL : Option Char → Bool
  | none => true
  | some c => !(isWordChar c)

/-- Word-boundary condition on the right of a word character, given the rest
of the string. -/
def wordEnd : Str → Bool
  | [] => true
  | c :: _ => !(isWordChar c)

/-- Run a position matcher over every position of the string, supplying the
character preceding each position; this is the regex engine trying every
start position. -/
def scanPrev (f : Option Char → Str → Bool) : Option Char → Str → Bool
  | prev, [] => f prev []
  | prev, c :: rest => f prev (c :: rest) || scanPrev f (some c) rest

/-- Run a position matcher that does not need the preceding character. -/
def scanAll (f : Str → Bool) : Str → Bool
  | [] => f []
  | c :: rest => f (c :: rest) || scanAll f rest

/-- Matcher for a pattern of shape: word boundary, keyword, word boundary. -/
def kwAt (kw : Str) (prev : Option Char) (t : Str) : Bool :=
  boundaryL prev &&
    (match stripLit kw t with
     | some r => wordEnd r
     | none => false)

/-- Matcher for a pattern of shape: word boundary, first keyword, one or more
whitespace, second keyword, word boundary. -/
def kwPairAt (k1 k2 : Str) (prev : Option Char) (t : Str) : Bool :=
  boundaryL prev &&
    (match stripLit k1 t with
     | none => false
     | some r1 =>
       match skipPlus jsSpace r1 with
       | none => false
       | some r2 =>
         match stripLit k2 r2 with
         | none => false
         | some r3 => wordEnd r3)

/-- Literal pattern of the first XSS regex. -/
def scriptOpenLit : Str := ("<script").toList

/-- Literal pattern of the javascript scheme regex. -/
def jsUriLit : Str := ("javascript:").toList

/-- Literal pattern of the iframe tag regex. -/
def iframeLit : Str := ("<iframe").toList

/-- Literal pattern of the object tag regex. -/
def objectLit : Str := ("<object").toList

/-- Literal pattern of the embed tag regex. -/
def embedLit : Str := ("<embed").toList

/-- Literal pattern of the document property regex. -/
def documentLit : Str := ("document.").toList

/-- Literal pattern of the window property regex. -/
def windowLit : Str := ("window.").toList

/-- Keyword literal union. -/
def unionLit : Str := ("union").toList

/-- Keyword literal select. -/
def selectLit : Str := ("select").toList

/-- Keyword literal drop. -/
def dropLit : Str := ("drop").toList

/-- Keyword literal table. -/
def tableLit : Str := ("table").toList

/-- Keyword literal delete. -/
def deleteLit : Str := ("delete").toList

/-- Keyword literal update. -/
def updateLit : Str := ("update").toList

/-- Keyword literal insert. -/
def insertLit : Str := ("insert").toList

/-- Literal or. -/
def orLit : Str := ("or").toList

/-- Literal double dash. -/
def ddashLit : Str := ("--").toList

/-- The single quote character. -/
def quoteC : Char := '\x27'

namespace Server

/-- Result record of validateInput in src/server.js: an isValid flag and an
attackType that is null for safe input. -/
structure ValidationResult where
  isValid : Bool
  attackType : Option String
deriving DecidableEq

/-- Literal pattern of the onclick handler regex. -/
def onclickLit : Str := ("onclick=").toList

/-- Literal pattern of the onload handler regex. -/
def onloadLit : Str := ("onload=").toList

/-- Literal pattern of the onerror handler regex. -/
def onerrorLit : Str := ("onerror=").toList

/-- Literal pattern of the alert call regex. -/
def alertLit : Str := ("alert(").toList

/-- Literal pattern of the eval call regex. -/
def evalLit : Str := ("eval(").toList

/-- The twelve XSS patterns of src/server.js, every one a case-insensitive
literal substring test, evaluated on the lowered input. -/
def anyXssLow (low : Str) : Bool :=
  containsLit scriptOpenLit low || containsLit jsUriLit low ||
  containsLit onclickLit low || containsLit onloadLit low ||
  containsLit onerrorLit low || containsLit iframeLit low ||
  containsLit objectLit low || containsLit embedLit low ||
  containsLit alertLit low || containsLit evalLit low ||
  containsLit documentLit low || containsLit windowLit low

/-- Literal admin followed by a single quote. -/
def adminQuoteLit : Str := ("admin\x27").toList

/-- Position matcher of the third SQL regex of src/server.js: a quote,
optional whitespace, the word or, whitespace, a quoted digit run, an equals
sign between optional whitespace, and another quoted digit run. -/
def sq3At (t : Str) : Bool :=
  (do
    let r ← chOpt quoteC t
    let r := r.dropWhile jsSpace
    let r ← stripLit orLit r
    let r ← skipPlus jsSpace r
    let r ← chOpt quoteC r
    let r ← skipPlus Char.isDigit r
    let r ← chOpt quoteC r
    let r := r.dropWhile jsSpace
    let r ← chOpt '=' r
    let r := r.dropWhile jsSpace
    let r ← chOpt quoteC r
    let r ← skipPlus Char.isDigit r
    let _ ← chOpt quoteC r
    pure ()).isSome

/-- Position matcher of the fourth SQL regex of src/server.js: a quote,
optional whitespace, the word or, whitespace, digits, an equals sign between
optional whitespace, digits. -/
def sq4At (t : Str) : Bool :=
  (do
    let r ← chOpt quoteC t
    let r := r.dropWhile jsSpace
    let r ← stripLit orLit r
    let r ← skipPlus jsSpace r
    let r ← skipPlus Char.isDigit r
    let r := r.dropWhile jsSpace
    let r ← chOpt '=' r
    let r := r.dropWhile jsSpace
    let _ ← skipPlus Char.isDigit r
    pure ()).isSome

/-- Position matcher of the fifth SQL regex of src/server.js: the literal
admin with a quote, optional whitespace, or, optional whitespace, digits,
equals, digits. -/
def sq5At (t : Str) : Bool :=
  (do
    let r ← stripLit adminQuoteLit t
    let r := r.dropWhile jsSpace
    let r ← stripLit orLit r
    let r := r.dropWhile jsSpace
    let r ← skipPlus Char.isDigit r
    let r := r.dropWhile jsSpace
    let r ← chOpt '=' r
    let r := r.dropWhile jsSpace
    let _ ← skipPlus Char.isDigit r
    pure ()).isSome

/-- Position matcher of the sixth SQL regex of src/server.js: a double dash
followed only by whitespace up to the end of the string. -/
def sq6At (t : Str) : Bool :=
  match stripLit ddashLit t with
  | some r => (r.dropWhile jsSpace).isEmpty
  | none => false

/-- Try the four statement keywords of the seventh SQL regex in order; their
first two characters make at most one alternative succeed at a position. -/
def stmtKw (r : Str) : Option Str :=
  match stripLit dropLit r with
  | some x => some x
  | none =>
    match stripLit deleteLit r with
    | some x => some x
    | none =>
      match stripLit updateLit r with
      | some x => some x
      | none => stripLit insertLit r

/-- Position matcher of the seventh SQL regex of src/server.js: a semicolon,
optional whitespace, one of the statement keywords, a word boundary. -/
def sq7At (t : Str) : Bool :=
  (do
    let r ← chOpt ';' t
    let r := r.dropWhile jsSpace
    let r ← stmtKw r
    if wordEnd r then pure () else none).isSome

/-- The seven SQL injection patterns of src/server.js, evaluated on the
lowered input. -/
def anySqlLow (low : Str) : Bool :=
  scanPrev (kwPairAt unionLit selectLit) none low ||
  scanPrev (kwPairAt dropLit tableLit) none low ||
  scanAll sq3At low ||
  scanAll sq4At low ||
  scanAll sq5At low ||
  scanAll sq6At low ||
  scanAll sq7At low

/-- XSS test of src/server.js: all its patterns carry the gi flags, so the
input is lowered once and matched against lowercase literals. -/
def anyXss (s : Str) : Bool := anyXssLow (lowerStr s)

/-- SQL injection test of src/server.js on the lowered input. -/
def anySql (s : Str) : Bool := anySqlLow (lowerStr s)

/-- The validateInput function of src/server.js: null and undefined, then
non-strings, then strings that trim to empty are invalid; then the XSS
patterns are tested, then the SQL patterns; otherwise the input is valid
with a null attackType. -/
def validateInput : JsValue → ValidationResult
  | JsValue.nullV => ⟨false, some "invalid"⟩
  | JsValue.undefV => ⟨false, some "invalid"⟩
  | JsValue.otherV => ⟨false, some "invalid"⟩
  | JsValue.str s =>
    if trimJS s = [] then ⟨false, some "invalid"⟩
    else if anyXss s then ⟨false, some "xss"⟩
    else if anySql s then ⟨false, some "sql"⟩
    else ⟨true, none⟩

/-- Text of the results template of src/server.js before the interpolated
search term. -/
def resultsPre : Str :=
  ("\n        <html>\n        <body>\n            <h1>Search Results</h1>\n            <p>Search Term: ").toList

/-- Text of the results template of src/server.js after the interpolated
search term. -/
def resultsPost : Str :=
  ("</p>\n            <a href=\"/\">Return to Home Page</a>\n        </body>\n        </html>\n    ").toList

/-- The fixed rejection page of src/server.js, sent whenever validation
fails; it contains no interpolation. -/
def errorPage : Str :=
  ("\n            <html>\n            <body>\n                <h1>Search Application</h1>\n                <p>Invalid input detected. Please try again.</p>\n                <form action=\"/search\" method=\"POST\">\n                    <input type=\"text\" name=\"searchTerm\" placeholder=\"Enter search term\" required value=\"\">\n                    <button type=\"submit\">Search</button>\n                </form>\n            </body>\n            </html>\n        ").toList

/-- The string content of a JsValue; the results template only interpolates
it when validation passed, which forces the string case. -/
def strOf : JsValue → Str
  | JsValue.str s => s
  | _ => []

/-- The search route handler of src/server.js viewed as a function from the
searchTerm field to the response body: the fixed rejection page on invalid
input, otherwise the results template with the raw term spliced in. -/
def postSearch (v : JsValue) : Str :=
  if (validateInput v).isValid then resultsPre ++ strOf v ++ resultsPost
  else errorPage

end Server

namespace Secure

/-- Result record of validateInput in the earlier server variant (part_003):
an isValid flag and a textual reason; the safe marker reason is the string
Input is safe. -/
structure ValidationResult where
  isValid : Bool
  reason : String
deriving DecidableEq

/-- Literal closing script tag. -/
def scriptCloseLit : Str := ("</script").toList ++ ['>']

/-- Literal on. -/
def onLit : Str := ("on").toList

/-- Literal pattern of the link tag regex. -/
def linkLit : Str := ("<link").toList

/-- Literal pattern of the meta tag regex. -/
def metaLit : Str := ("<meta").toList

/-- Literal pattern of the style tag regex. -/
def styleLit : Str := ("<style").toList

/-- Literal pattern of the vbscript scheme regex. -/
def vbscriptLit : Str := ("vbscript:").toList

/-- Literal pattern of the data html uri regex (the escaped slash in the
source is the literal slash character). -/
def dataHtmlLit : Str := ("data:text/html").toList

/-- Literal expression. -/
def expressionLit : Str := ("expression").toList

/-- Literal opening img tag. -/
def imgLit : Str := ("<img").toList

/-- Literal src. -/
def srcLit : Str := ("src").toList

/-- Literal alert without parenthesis. -/
def alertWordLit : Str := ("alert").toList

/-- Literal confirm. -/
def confirmLit : Str := ("confirm").toList

/-- Literal prompt. -/
def promptLit : Str := ("prompt").toList

/-- Literal eval without parenthesis. -/
def evalWordLit : Str := ("eval").toList

/-- Literal settimeout, lowered for the case-insensitive match. -/
def settimeoutLit : Str := ("settimeout").toList

/-- Literal setinterval, lowered for the case-insensitive match. -/
def setintervalLit : Str := ("setinterval").toList

/-- Keyword literal create. -/
def createLit : Str := ("create").toList

/-- Keyword literal alter. -/
def alterLit : Str := ("alter").toList

/-- Keyword literal exec. -/
def execLit : Str := ("exec").toList

/-- Keyword literal execute. -/
def executeLit : Str := ("execute").toList

/-- Keyword literal declare. -/
def declareLit : Str := ("declare").toList

/-- Keyword literal into. -/
def intoLit : Str := ("into").toList

/-- Keyword literal truncate. -/
def truncateLit : Str := ("truncate").toList

/-- Keyword literal all. -/
def allLit : Str := ("all").toList

/-- Literal and. -/
def andLit : Str := ("and").toList

/-- Literal xp cmdshell keyword. -/
def xpCmdshellLit : Str := ("xp_cmdshell").toList

/-- Literal sp executesql keyword. -/
def spExecutesqlLit : Str := ("sp_executesql").toList

/-- Literal slash star. -/
def slashStarLit : Str := ("/*").toList

/-- Literal star slash. -/
def starSlashLit : Str := ("*/").toList

/-- Position matcher of the script element regex of part_003.  The regex is
an opening script tag with a word boundary, a run of characters other than
the opening angle bracket, then a loop of blocks each consuming an angle
bracket not starting the closing tag plus a run of non-bracket characters,
and finally the closing script tag.  Every block of the loop starts at an
angle bracket and the closing tag itself starts with one, so the loop walks
exactly the angle bracket positions after the opening tag and succeeds
precisely when the closing tag occurs as a substring of the remainder. -/
def scriptAt (t : Str) : Bool :=
  match stripLit scriptOpenLit t with
  | none => false
  | some r => wordEnd r && containsLit scriptCloseLit r

/-- Position matcher for the inline handler regex of part_003: the literal
on, one or more word characters, optional whitespace, an equals sign. -/
def onAt (t : Str) : Bool :=
  (do
    let r ← stripLit onLit t
    let r ← skipPlus isWordChar r
    let r := r.dropWhile jsSpace
    let _ ← chOpt '=' r
    pure ()).isSome

/-- Position matcher for a pattern of shape: name, optional whitespace,
opening parenthesis. -/
def nameParenAt (lit : Str) (t : Str) : Bool :=
  (do
    let r ← stripLit lit t
    let r := r.dropWhile jsSpace
    let _ ← chOpt '(' r
    pure ()).isSome

/-- Scan for an equals sign before any closing angle bracket, the tail of
the img pattern of part_003. -/
def eqNoGt : Str → Bool
  | [] => false
  | c :: rest => if c = '=' then true else if c = '>' then false else eqNoGt rest

/-- Scan for the literal src before any closing angle bracket, then an
equals sign before any closing angle bracket. -/
def srcScan : Str → Bool
  | [] => false
  | c :: rest =>
    (match stripLit srcLit (c :: rest) with
     | some r2 => eqNoGt r2
     | none => false) ||
    (if c = '>' then false else srcScan rest)

/-- Position matcher of the img regex of part_003: an opening img tag, at
least one character other than a closing bracket, the literal src, then an
equals sign with no closing bracket in between. -/
def imgAt (t : Str) : Bool :=
  match stripLit imgLit t with
  | none => false
  | some r =>
    match r with
    | [] => false
    | c :: rest => if c = '>' then false else srcScan rest

/-- Scan for a closing quote with no line terminator in between, the tail of
the quoted boolean patterns of part_003 (the regex dot does not match line
terminators). -/
def quoteNoNl (q : Char) : Str → Bool
  | [] => false
  | c :: rest => if c = q then true else if lineTerm c then false else quoteNoNl q rest

/-- Scan for the literal or followed by a closing quote, moving over
characters matched by the regex dot. -/
def orThenQuote (q : Char) : Str → Bool
  | [] => false
  | c :: rest =>
    (match stripLit orLit (c :: rest) with
     | some r => quoteNoNl q r
     | none => false) ||
    (if lineTerm c then false else orThenQuote q rest)

/-- Position matcher of the quoted boolean patterns of part_003: a quote,
any characters, the word or, any characters, a quote. -/
def quoteOrQuoteAt (q : Char) (t : Str) : Bool :=
  match chOpt q t with
  | some r => orThenQuote q r
  | none => false

/-- Quote class of the boolean tautology patterns. -/
def quote2 (c : Char) : Bool := c == quoteC || c == '"'

/-- Alternation of the literals or and and; their first characters differ so
at most one branch succeeds at a position. -/
def orAndStrip (t : Str) : Option Str :=
  match stripLit orLit t with
  | some r => some r
  | none => stripLit andLit t

/-- Position matcher of the numeric boolean tautology regex of part_003:
or or and, whitespace, optional quotes, digits, optional quotes and
whitespace, equals, optional whitespace and quotes, digits.  The trailing
optional quote run, whitespace run and double dash of the source pattern
always match the empty string and are dropped. -/
def bool3At (t : Str) : Bool :=
  (do
    let r ← orAndStrip t
    let r ← skipPlus jsSpace r
    let r := r.dropWhile quote2
    let r ← skipPlus Char.isDigit r
    let r := r.dropWhile quote2
    let r := r.dropWhile jsSpace
    let r ← chOpt '=' r
    let r := r.dropWhile jsSpace
    let r := r.dropWhile quote2
    let _ ← skipPlus Char.isDigit r
    pure ()).isSome

/-- Position matcher of the alphabetic boolean tautology regex of part_003:
whitespace, or or and, whitespace, optional quotes, letters, optional
quotes and whitespace, equals, optional whitespace and quotes, letters.
The trailing optional parts of the source pattern are dropped as above. -/
def bool4At (t : Str) : Bool :=
  (do
    let r ← skipPlus jsSpace t
    let r ← orAndStrip r
    let r ← skipPlus jsSpace r
    let r := r.dropWhile quote2
    let r ← skipPlus Char.isAlpha r
    let r := r.dropWhile quote2
    let r := r.dropWhile jsSpace
    let r ← chOpt '=' r
    let r := r.dropWhile jsSpace
    let r := r.dropWhile quote2
    let _ ← skipPlus Char.isAlpha r
    pure ()).isSome

/-- Position matcher of the one equals one regex of part_003. -/
def oneEqOneAt (t : Str) : Bool :=
  (do
    let r ← chOpt '1' t
    let r := r.dropWhile jsSpace
    let r ← chOpt '=' r
    let r := r.dropWhile jsSpace
    let _ ← chOpt '1' r
    pure ()).isSome

/-- Tail of the union select patterns: the keyword select with a word
boundary after it. -/
def selTail (r : Str) : Bool :=
  match stripLit selectLit r with
  | some r2 => wordEnd r2
  | none => false

/-- Position matcher of the union select regex of part_003 with its optional
all group: the optional branch is tried first and the empty alternative
second, as the regex engine does. -/
def unionAllSelectAt (prev : Option Char) (t : Str) : Bool :=
  boundaryL prev &&
    (match stripLit unionLit t with
     | none => false
     | some r1 =>
       match skipPlus jsSpace r1 with
       | none => false
       | some r2 =>
         (match stripLit allLit r2 with
          | some r3 =>
            match skipPlus jsSpace r3 with
            | some r4 => selTail r4
            | none => false
          | none => false) || selTail r2)

/-- Position matcher of the exec call regex of part_003: word boundary,
exec, optional whitespace, opening parenthesis. -/
def execParenAt (prev : Option Char) (t : Str) : Bool :=
  boundaryL prev &&
    (match stripLit execLit t with
     | none => false
     | some r =>
       match chOpt '(' (r.dropWhile jsSpace) with
       | some _ => true
       | none => false)

/-- The eleven keywords of the first SQL regex of part_003, in source
order. -/
def sqlKws : List Str :=
  [selectLit, insertLit, updateLit, deleteLit, dropLit, createLit,
   alterLit, execLit, executeLit, unionLit, declareLit]

/-- Position matcher of the keyword alternation: some keyword bounded by
word boundaries on both sides. -/
def kwListAt (prev : Option Char) (t : Str) : Bool :=
  sqlKws.any (fun k => kwAt k prev t)

/-- The metacharacter alternation of the second SQL regex of part_003:
a quote, a backslash, a semicolon, a double dash, or a comment
delimiter. -/
def metaChars (low : Str) : Bool :=
  containsLit [quoteC] low || containsLit ['\\'] low || containsLit [';'] low ||
  containsLit ddashLit low || containsLit slashStarLit low ||
  containsLit starSlashLit low

/-- The twenty one XSS patterns of part_003, in source order, on the
lowered input. -/
def anyXssLow (low : Str) : Bool :=
  scanAll scriptAt low ||
  containsLit jsUriLit low ||
  scanAll onAt low ||
  containsLit iframeLit low ||
  containsLit objectLit low ||
  containsLit embedLit low ||
  containsLit linkLit low ||
  containsLit metaLit low ||
  containsLit styleLit low ||
  containsLit vbscriptLit low ||
  containsLit dataHtmlLit low ||
  scanAll (nameParenAt expressionLit) low ||
  scanAll imgAt low ||
  scanAll (nameParenAt alertWordLit) low ||
  scanAll (nameParenAt confirmLit) low ||
  scanAll (nameParenAt promptLit) low ||
  containsLit documentLit low ||
  containsLit windowLit low ||
  scanAll (nameParenAt evalWordLit) low ||
  scanAll (nameParenAt settimeoutLit) low ||
  scanAll (nameParenAt setintervalLit) low

/-- The fourteen SQL injection patterns of part_003, in source order, on the
lowered input. -/
def anySqlLow (low : Str) : Bool :=
  scanPrev kwListAt none low ||
  metaChars low ||
  scanAll bool3At low ||
  scanAll bool4At low ||
  scanAll oneEqOneAt low ||
  scanAll (quoteOrQuoteAt quoteC) low ||
  scanAll (quoteOrQuoteAt '"') low ||
  scanPrev unionAllSelectAt none low ||
  scanPrev (kwPairAt insertLit intoLit) none low ||
  scanPrev (kwPairAt dropLit tableLit) none low ||
  scanPrev (kwPairAt truncateLit tableLit) none low ||
  scanPrev execParenAt none low ||
  scanPrev (kwAt xpCmdshellLit) none low ||
  scanPrev (kwAt spExecutesqlLit) none low

/-- XSS test of part_003: every pattern carries the gi flags, so the input
is lowered once. -/
def anyXss (s : Str) : Bool := anyXssLow (lowerStr s)

/-- SQL injection test of part_003 on the lowered input. -/
def anySql (s : Str) : Bool := anySqlLow (lowerStr s)

/-- The allow list character class of part_003: ASCII letters, digits,
JavaScript whitespace, and the fixed punctuation set. -/
def allowChar (c : Char) : Bool :=
  c.isAlpha || c.isDigit || jsSpace c || c == '.' || c == ',' || c == '!' ||
  c == '?' || c == quoteC || c == '"' || c == '(' || c == ')' || c == '-'

/-- The anchored allow list test of part_003: one or more allowed
characters spanning the whole string. -/
def allowlistOk (s : Str) : Bool := !s.isEmpty && s.all allowChar

/-- The validateInput function of part_003.  The DOMPurify sanitizer is an
external library and is passed as the function parameter san; the falsy
check rejects null, undefined, non-strings and the empty string with one
shared reason, then the XSS patterns, the SQL patterns, the sanitizer
comparison, the length bound, the null byte check and the allow list run in
order. -/
def validateInput (san : Str → Str) : JsValue → ValidationResult
  | JsValue.nullV => ⟨false, "Invalid input type"⟩
  | JsValue.undefV => ⟨false, "Invalid input type"⟩
  | JsValue.otherV => ⟨false, "Invalid input type"⟩
  | JsValue.str s =>
    if s.isEmpty then ⟨false, "Invalid input type"⟩
    else if anyXss s then ⟨false, "XSS Attack detected"⟩
    else if anySql s then ⟨false, "SQL Injection attack detected"⟩
    else if san s ≠ s then ⟨false, "XSS Attack detected by DOMPurify"⟩
    else if s.length > 1000 then ⟨false, "Input too long"⟩
    else if s.contains '\x00' then ⟨false, "Null byte detected"⟩
    else if !allowlistOk s then ⟨false, "Invalid characters detected"⟩
    else ⟨true, "Input is safe"⟩

end Secure

/-- Identity function on strings, used to instantiate the sanitizer
parameter at concrete inputs whose verdict is decided by checks that run
before the sanitizer comparison, and at inputs where sanitizer stability is
an explicit hypothesis. -/
def sanitizeId : Str → Str := fun s => s

/-- Characters of the JavaScript whitespace class are fixed by ASCII
lowering. -/
lemma toLower_of_jsSpace (c : Char) (h : jsSpace c = true) : c.toLower = c := by
  have hm : c ∈ jsSpaceChars := by
    unfold jsSpace at h
    exact List.mem_of_elem_eq_true h
  unfold jsSpaceChars at hm
  simp only [List.mem_cons, List.not_mem_nil, or_false] at hm
  rcases hm with rfl|rfl|rfl|rfl|rfl|rfl|rfl|rfl|rfl|rfl|rfl|rfl|rfl|rfl|rfl|rfl|rfl|rfl|rfl|rfl|rfl|rfl|rfl|rfl|rfl <;> rfl

/-- Characters of the JavaScript whitespace class are not word
characters. -/
lemma space_not_word (c : Char) (h : jsSpace c = true) : isWordChar c = false := by
  have hm : c ∈ jsSpaceChars := by
    unfold jsSpace at h
    exact List.mem_of_elem_eq_true h
  unfold jsSpaceChars at hm
  simp only [List.mem_cons, List.not_mem_nil, or_false] at hm
  rcases hm with rfl|rfl|rfl|rfl|rfl|rfl|rfl|rfl|rfl|rfl|rfl|rfl|rfl|rfl|rfl|rfl|rfl|rfl|rfl|rfl|rfl|rfl|rfl|rfl|rfl <;> rfl

/-- If dropWhile removes everything then the predicate holds on every
element. -/
lemma dropWhile_nil_all (p : Char → Bool) :
    ∀ s : Str, s.dropWhile p = [] → ∀ c ∈ s, p c = true := by
  intro s
  induction s with
  | nil => intro _ c hc; cases hc
  | cons a t ih =>
    intro h c hc
    rw [List.dropWhile_cons] at h
    by_cases hp : p a = true
    · rw [if_pos hp] at h
      cases hc with
      | head => exact hp
      | tail _ hc2 => exact ih h c hc2
    · rw [if_neg hp] at h
      cases h

/-- Elements of takeWhile satisfy the predicate. -/
lemma takeWhile_mem_prop (p : Char → Bool) :
    ∀ s : Str, ∀ c ∈ s.takeWhile p, p c = true := by
  intro s
  induction s with
  | nil => intro c hc; cases hc
  | cons a t ih =>
    intro c hc
    rw [List.takeWhile_cons] at hc
    by_cases hp : p a = true
    · rw [if_pos hp] at hc
      cases hc with
      | head => exact hp
      | tail _ hc2 => exact ih c hc2
    · rw [if_neg hp] at hc
      cases hc

/-- A string that trims to empty consists of whitespace only. -/
lemma trimJS_nil_all (s : Str) (h : trimJS s = []) : ∀ c ∈ s, jsSpace c = true := by
  unfold trimJS at h
  rw [List.reverse_eq_nil_iff] at h
  have h4 : ∀ c ∈ s.dropWhile jsSpace, jsSpace c = true := by
    intro c hc
    exact dropWhile_nil_all jsSpace _ h c (by rw [List.mem_reverse]; exact hc)
  intro c hc
  rw [← List.takeWhile_append_dropWhile jsSpace s] at hc
  rcases List.mem_append.mp hc with h5 | h5
  · exact takeWhile_mem_prop jsSpace s c h5
  · exact h4 c h5

/-- A string whose lowered form contains a non-whitespace character does
not trim to empty. -/
lemma trim_ne_of_mem (s : Str) (c : Char) (hc : c ∈ lowerStr s)
    (hns : jsSpace c = false) : ¬ trimJS s = [] := by
  intro h
  have hall := trimJS_nil_all s h
  rcases List.mem_map.mp hc with ⟨d, hd, hdc⟩
  have hds := hall d hd
  have hcd : c = d := by rw [← hdc, toLower_of_jsSpace d hds]
  rw [hcd, hds] at hns
  cases hns

/-- A successful literal strip implies every pattern character occurs in the
string. -/
lemma stripLit_mem : ∀ (pat s r : Str), stripLit pat s = some r → ∀ c ∈ pat, c ∈ s := by
  intro pat
  induction pat with
  | nil => intro s r _ c hc; cases hc
  | cons p ps ih =>
    intro s r h c hc
    cases s with
    | nil => simp [stripLit] at h
    | cons d t =>
      rw [stripLit] at h
      by_cases hpd : p = d
      · rw [if_pos hpd] at h
        cases hc with
        | head => rw [hpd]; exact List.mem_cons_self d t
        | tail _ hc2 => exact List.mem_cons_of_mem d (ih t r h c hc2)
      · rw [if_neg hpd] at h
        cases h

/-- Containment of a literal implies every pattern character occurs in the
string. -/
lemma containsLit_mem (pat : Str) : ∀ s, containsLit pat s = true → ∀ c ∈ pat, c ∈ s := by
  intro s
  induction s with
  | nil =>
    intro h c hc
    cases pat with
    | nil => cases hc
    | cons p ps => simp [containsLit, isPrefixB, stripLit] at h
  | cons a t ih =>
    intro h c hc
    rw [containsLit] at h
    rw [Bool.or_eq_true] at h
    rcases h with h1 | h1
    · unfold isPrefixB at h1
      cases hs : stripLit pat (a :: t) with
      | none => rw [hs] at h1; cases h1
      | some r => exact stripLit_mem pat _ r hs c hc
    · exact List.mem_cons_of_mem a (ih h1 c hc)

/-- A successful scan yields a suffix position where the matcher fires. -/
lemma scanPrev_ex (f : Option Char → Str → Bool) :
    ∀ (prev : Option Char) (s : Str), scanPrev f prev s = true →
      ∃ p t, t <:+ s ∧ f p t = true := by
  intro prev s
  induction s generalizing prev with
  | nil => intro h; exact ⟨prev, [], List.suffix_refl _, h⟩
  | cons c rest ih =>
    intro h
    rw [scanPrev] at h
    rw [Bool.or_eq_true] at h
    rcases h with h1 | h1
    · exact ⟨prev, c :: rest, List.suffix_refl _, h1⟩
    · obtain ⟨p, t, hsuf, hf⟩ := ih (some c) h1
      exact ⟨p, t, hsuf.trans (List.suffix_cons c rest), hf⟩

/-- Pointwise implication between matchers lifts to the scan. -/
lemma scanPrev_mono (f g : Option Char → Str → Bool)
    (hfg : ∀ p t, f p t = true → g p t = true) :
    ∀ (prev : Option Char) (s : Str), scanPrev f prev s = true →
      scanPrev g prev s = true := by
  intro prev s
  induction s generalizing prev with
  | nil => intro h; exact hfg prev [] h
  | cons c rest ih =>
    intro h
    rw [scanPrev] at h ⊢
    rw [Bool.or_eq_true] at h
    rcases h with h1 | h1
    · rw [Bool.or_eq_true]
      exact Or.inl (hfg prev (c :: rest) h1)
    · rw [Bool.or_eq_true]
      exact Or.inr (ih (some c) h1)

/-- A successful keyword pair match strips its first keyword. -/
lemma kwPairAt_strip (k1 k2 : Str) (p : Option Char) (t : Str)
    (h : kwPairAt k1 k2 p t = true) : ∃ r, stripLit k1 t = some r := by
  unfold kwPairAt at h
  rw [Bool.and_eq_true] at h
  cases hs : stripLit k1 t with
  | none => rw [hs] at h; simp at h
  | some r => exact ⟨r, rfl⟩

/-- A match of the two keyword union select pattern yields a match of the
bare keyword union with boundaries on both sides, because the whitespace
after union is not a word character. -/
lemma kwPair_to_kwList (p : Option Char) (t : Str)
    (h : kwPairAt unionLit selectLit p t = true) : Secure.kwListAt p t = true := by
  unfold kwPairAt at h
  rw [Bool.and_eq_true] at h
  obtain ⟨hb, hm⟩ := h
  unfold Secure.kwListAt
  rw [List.any_eq_true]
  refine ⟨unionLit, by simp [Secure.sqlKws], ?_⟩
  unfold kwAt
  rw [Bool.and_eq_true]
  refine ⟨hb, ?_⟩
  split at hm
  next => cases hm
  next r1 h1 =>
    simp only [h1]
    split at hm
    next => cases hm
    next r2 h2 =>
      cases r1 with
      | nil => simp [skipPlus] at h2
      | cons c cs =>
        simp only [skipPlus] at h2
        by_cases hc : jsSpace c = true
        · simp [wordEnd, space_not_word c hc]
        · rw [if_neg hc] at h2
          cases h2

/-- When the sanitizer fixes the string the verdict of the earlier validator
equals its verdict with the identity sanitizer. -/
lemma secure_validate_san_eq (san : Str → Str) (s : Str) (h : san s = s) :
    Secure.validateInput san (JsValue.str s) =
      Secure.validateInput sanitizeId (JsValue.str s) := by
  simp only [Secure.validateInput, sanitizeId, h]

/-- Claim C1: the claim states that for every input classified SAFE whose
text contains the angle bracket, the rendered results page embeds the input
HTML escaped and never contains the raw bracket from the input.  The
src/server.js rendering path interpolates the term verbatim: the input
consisting of the letter a, a spaced angle bracket and the letter b is
classified SAFE, the rendered page contains the input verbatim inside the
search term line, and no escaped bracket entity occurs anywhere in the
page.  This contradicts the stated invariant on the code as it stands; the
earlier variant escapes the term, which is what the specification
mandates. -/
theorem safe_lt_input_rendered_raw :
    (Server.validateInput (JsValue.str (("a < b").toList))).isValid = true ∧
    containsLit (("Search Term: a < b").toList)
      (Server.postSearch (JsValue.str (("a < b").toList))) = true ∧
    containsLit (("&lt;").toList)
      (Server.postSearch (JsValue.str (("a < b").toList))) = false := by
  refine ⟨by decide, by decide, by decide⟩

/-- Claim C2, counterexample: a string of two spaces is classified REJECTED
by src/server.js, yet the rendered rejection page contains that two space
string verbatim, because the fixed template itself contains indentation
whitespace.  The universally quantified non containment stated by the claim
is therefore false. -/
theorem rejected_whitespace_echoed :
    (Server.validateInput (JsValue.str ((" ").toList ++ (" ").toList))).isValid = false ∧
    containsLit ((" ").toList ++ (" ").toList)
      (Server.postSearch (JsValue.str ((" ").toList ++ (" ").toList))) = true := by
  refine ⟨by decide, by decide⟩

/-- Claim C2, amended: for every input classified REJECTED the response is
one fixed page that does not depend on the input at all, and that page
shows the form field with an empty value attribute; hence the rejected text
is never embedded in the response and can only occur in it by coinciding
with a substring of the fixed template, as pure whitespace does. -/
theorem rejected_renders_fixed_empty_form :
    (∀ v, (Server.validateInput v).isValid = false →
      Server.postSearch v = Server.errorPage) ∧
    containsLit (("value=\"\"").toList) Server.errorPage = true := by
  constructor
  · intro v h
    simp [Server.postSearch, h]
  · decide

/-- Witness for the amended claim C2 at a concrete rejected input. -/
theorem rejected_renders_fixed_empty_form_w :
    Server.postSearch (JsValue.str (("<script>x").toList)) = Server.errorPage :=
  rejected_renders_fixed_empty_form.1 _ (by decide)

/-- Claim C3: every string containing the case-insensitive substring that
opens a script tag is rejected by validateInput of src/server.js with the
xss attack type: the substring makes the string trim to something nonempty,
and the first XSS pattern fires. -/
theorem script_substring_rejected_xss (s : Str)
    (h : containsLit scriptOpenLit (lowerStr s) = true) :
    Server.validateInput (JsValue.str s) = ⟨false, some "xss"⟩ := by
  have hlt : ('<') ∈ lowerStr s := containsLit_mem _ _ h '<' (by decide)
  have htrim : ¬ trimJS s = [] := trim_ne_of_mem s '<' hlt (by decide)
  have hx : Server.anyXss s = true := by
    unfold Server.anyXss Server.anyXssLow
    rw [h]
    rfl
  simp only [Server.validateInput]
  rw [if_neg htrim, if_pos hx]

/-- Witness for claim C3 at a mixed case concrete input. -/
theorem script_substring_rejected_xss_w :
    Server.validateInput (JsValue.str (("x<sCrIpT>y").toList)) = ⟨false, some "xss"⟩ :=
  script_substring_rejected_xss _ (by decide)

/-- Claim C4: every string matching the union select regex (word boundary,
union, whitespace, select, word boundary, case-insensitive) is rejected by
both validateInput implementations, and on the concrete scenario input the
attack type is the SQL injection one in both.  For src/server.js the match
is the first SQL pattern, reached unless an XSS pattern already rejected
the string; for the earlier variant the bare keyword union matches the
keyword alternation, which runs before the sanitizer step, so the verdict
holds for every sanitizer. -/
theorem union_select_rejected :
    (∀ s, scanPrev (kwPairAt unionLit selectLit) none (lowerStr s) = true →
      (Server.validateInput (JsValue.str s)).isValid = false ∧
      (∀ san, (Secure.validateInput san (JsValue.str s)).isValid = false)) ∧
    Server.validateInput (JsValue.str (("\x27 UNION SELECT * FROM users --").toList)) =
      ⟨false, some "sql"⟩ ∧
    (∀ san, Secure.validateInput san
        (JsValue.str (("\x27 UNION SELECT * FROM users --").toList)) =
      ⟨false, "SQL Injection attack detected"⟩) := by
  refine ⟨?_, by decide, fun san => rfl⟩
  intro s h
  obtain ⟨p, t, hsuf, hat⟩ := scanPrev_ex _ none (lowerStr s) h
  obtain ⟨r, hr⟩ := kwPairAt_strip unionLit selectLit p t hat
  have hu : ('u') ∈ lowerStr s := hsuf.subset (stripLit_mem _ _ _ hr 'u' (by decide))
  have htrim : ¬ trimJS s = [] := trim_ne_of_mem s 'u' hu (by decide)
  constructor
  · by_cases hx : Server.anyXss s = true
    · simp only [Server.validateInput]
      rw [if_neg htrim, if_pos hx]
    · have hq : Server.anySql s = true := by
        unfold Server.anySql Server.anySqlLow
        rw [h]
        rfl
      simp only [Server.validateInput]
      rw [if_neg htrim, if_neg hx, if_pos hq]
  · intro san
    have hne : s.isEmpty = false := by
      cases s with
      | nil => simp [lowerStr] at hu
      | cons a tl => rfl
    by_cases hx2 : Secure.anyXss s = true
    · simp only [Secure.validateInput]
      rw [if_neg (by simp [hne]), if_pos hx2]
    · have hq2 : Secure.anySql s = true := by
        unfold Secure.anySql Secure.anySqlLow
        have hkl : scanPrev Secure.kwListAt none (lowerStr s) = true :=
          scanPrev_mono _ _ kwPair_to_kwList none (lowerStr s) h
        rw [hkl]
        rfl
      simp only [Secure.validateInput]
      rw [if_neg (by simp [hne]), if_neg hx2, if_pos hq2]

/-- Witness for the universally quantified part of claim C4 at a concrete
input. -/
theorem union_select_rejected_w :
    (Server.validateInput (JsValue.str (("x uNiOn  SeLeCt y").toList))).isValid = false :=
  (union_select_rejected.1 (("x uNiOn  SeLeCt y").toList) (by decide)).1

/-- Claim C5, counterexample: the claim states that the empty string, null
and undefined receive the distinguished reasons EMPTY, MISSING or wrong
type, and wrong type respectively.  In src/server.js all three return the
same attack type string, so no distinction exists; the same holds in the
earlier variant, where all three return the same invalid input type
reason. -/
theorem empty_null_undefined_same_reason :
    (Server.validateInput (JsValue.str [])).attackType =
      (Server.validateInput JsValue.nullV).attackType ∧
    (Server.validateInput JsValue.undefV).attackType =
      (Server.validateInput JsValue.nullV).attackType ∧
    (Secure.validateInput sanitizeId (JsValue.str [])).reason =
      (Secure.validateInput sanitizeId JsValue.nullV).reason := by
  refine ⟨rfl, rfl, rfl⟩

/-- Claim C5, amended: the empty string, null and undefined are all
classified REJECTED, but with one shared reason per implementation rather
than the three distinguished reasons stated by the claim. -/
theorem empty_null_undefined_rejected_uniform :
    Server.validateInput (JsValue.str []) = ⟨false, some "invalid"⟩ ∧
    Server.validateInput JsValue.nullV = ⟨false, some "invalid"⟩ ∧
    Server.validateInput JsValue.undefV = ⟨false, some "invalid"⟩ ∧
    (∀ san, Secure.validateInput san (JsValue.str []) = ⟨false, "Invalid input type"⟩ ∧
      Secure.validateInput san JsValue.nullV = ⟨false, "Invalid input type"⟩ ∧
      Secure.validateInput san JsValue.undefV = ⟨false, "Invalid input type"⟩) := by
  exact ⟨by decide, rfl, rfl, fun san => ⟨rfl, rfl, rfl⟩⟩

/-- Claim C6: in both implementations the verdict is safe exactly when the
reason is the safe marker: in src/server.js the isValid flag is true if and
only if the attackType is null, and in the earlier variant the isValid flag
is true if and only if the reason is the safe string, for every input and
every sanitizer. -/
theorem safe_iff_reason_safe_marker :
    (∀ v, (Server.validateInput v).isValid = true ↔
      (Server.validateInput v).attackType = none) ∧
    (∀ san v, (Secure.validateInput san v).isValid = true ↔
      (Secure.validateInput san v).reason = "Input is safe") := by
  constructor
  · intro v
    cases v with
    | nullV => simp [Server.validateInput]
    | undefV => simp [Server.validateInput]
    | otherV => simp [Server.validateInput]
    | str s =>
      simp only [Server.validateInput]
      split_ifs <;> simp
  · intro san v
    cases v with
    | nullV => simp [Secure.validateInput]
    | undefV => simp [Secure.validateInput]
    | otherV => simp [Secure.validateInput]
    | str s =>
      simp only [Secure.validateInput]
      split_ifs <;> simp

/-- Claim C7: in the earlier variant, any string that survives the earlier
checks (nonempty after trimming, no XSS pattern, no SQL pattern, unchanged
by the sanitizer) and is longer than one thousand characters is rejected
with the too long reason. -/
theorem too_long_rejected (san : Str → Str) (s : Str)
    (h0 : ¬ trimJS s = []) (h1 : Secure.anyXss s = false)
    (h2 : Secure.anySql s = false) (h3 : san s = s) (h4 : s.length > 1000) :
    Secure.validateInput san (JsValue.str s) = ⟨false, "Input too long"⟩ := by
  have hne : s.isEmpty = false := by
    cases s with
    | nil => exact absurd rfl h0
    | cons c t => rfl
  simp only [Secure.validateInput]
  rw [if_neg (by simp [hne]), if_neg (by simp [h1]), if_neg (by simp [h2]),
    if_neg (by simp [h3]), if_pos h4]

/-- Witness for claim C7 at a concrete input of length one thousand and
one. -/
theorem too_long_rejected_w :
    Secure.validateInput sanitizeId (JsValue.str (List.replicate 1001 'a')) =
      ⟨false, "Input too long"⟩ :=
  too_long_rejected sanitizeId _ (by decide) (by decide) (by decide) rfl (by decide)

/-- Claim C8: the two benign scenario strings are classified safe by
src/server.js with a null attack type, and by the earlier variant with the
safe reason whenever the sanitizer leaves them unchanged (as any HTML
sanitizer does on plain text). -/
theorem benign_inputs_safe :
    Server.validateInput (JsValue.str (("hello world").toList)) = ⟨true, none⟩ ∧
    Server.validateInput (JsValue.str (("test123").toList)) = ⟨true, none⟩ ∧
    (∀ san, san (("hello world").toList) = ("hello world").toList →
      Secure.validateInput san (JsValue.str (("hello world").toList)) =
        ⟨true, "Input is safe"⟩) ∧
    (∀ san, san (("test123").toList) = ("test123").toList →
      Secure.validateInput san (JsValue.str (("test123").toList)) =
        ⟨true, "Input is safe"⟩) := by
  refine ⟨by decide, by decide, ?_, ?_⟩ <;>
    intro san h <;> rw [secure_validate_san_eq san _ h] <;> decide

/-- Witness for claim C8 with the identity sanitizer. -/
theorem benign_inputs_safe_w :
    Secure.validateInput sanitizeId (JsValue.str (("hello world").toList)) =
      ⟨true, "Input is safe"⟩ :=
  benign_inputs_safe.2.2.1 sanitizeId rfl

/-- Claim C9: both validateInput implementations are total functions of the
embedded input value: for every input, including null, undefined and
non-string values, they return a well formed result, either the safe result
or a rejection carrying a reason; no input is outside the domain.  In the
embedding this totality is witnessed by the function being defined by
exhaustive cases on the value shape. -/
theorem classify_total_function :
    (∀ v, Server.validateInput v = ⟨true, none⟩ ∨
      ∃ r, Server.validateInput v = ⟨false, some r⟩) ∧
    (∀ san v, Secure.validateInput san v = ⟨true, "Input is safe"⟩ ∨
      ∃ r, Secure.validateInput san v = ⟨false, r⟩) := by
  constructor
  · intro v
    cases v with
    | nullV => exact Or.inr ⟨"invalid", rfl⟩
    | undefV => exact Or.inr ⟨"invalid", rfl⟩
    | otherV => exact Or.inr ⟨"invalid", rfl⟩
    | str s =>
      simp only [Server.validateInput]
      split_ifs
      · exact Or.inr ⟨"invalid", rfl⟩
      · exact Or.inr ⟨"xss", rfl⟩
      · exact Or.inr ⟨"sql", rfl⟩
      · exact Or.inl rfl
  · intro san v
    cases v with
    | nullV => exact Or.inr ⟨"Invalid input type", rfl⟩
    | undefV => exact Or.inr ⟨"Invalid input type", rfl⟩
    | otherV => exact Or.inr ⟨"Invalid input type", rfl⟩
    | str s =>
      simp only [Secure.validateInput]
      split_ifs
      · exact Or.inr ⟨"Invalid input type", rfl⟩
      · exact Or.inr ⟨"XSS Attack detected", rfl⟩
      · exact Or.inr ⟨"SQL Injection attack detected", rfl⟩
      · exact Or.inr ⟨"XSS Attack detected by DOMPurify", rfl⟩
      · exact Or.inr ⟨"Input too long", rfl⟩
      · exact Or.inr ⟨"Null byte detected", rfl⟩
      · exact Or.inr ⟨"Invalid characters detected", rfl⟩
      · exact Or.inl rfl

/-- Claim C10, counterexample: the two validateInput implementations do not
agree on every input: the string hello semicolon world is accepted by
src/server.js but rejected by the earlier variant, whose metacharacter
pattern matches the semicolon before the sanitizer step is ever consulted
(the identity instantiation below is therefore innocuous). -/
theorem validators_disagree_on_semicolon :
    (Server.validateInput (JsValue.str (("hello;world").toList))).isValid = true ∧
    (Secure.validateInput sanitizeId (JsValue.str (("hello;world").toList))).isValid = false := by
  refine ⟨by decide, rfl⟩

/-- Claim C10, amended: the two implementations agree on all non string
inputs, which both reject, but they disagree on strings: the semicolon
example is accepted by src/server.js and rejected by the earlier variant
for every sanitizer. -/
theorem validators_common_rejections :
    (∀ san, (Secure.validateInput san (JsValue.str (("hello;world").toList))).isValid = false ∧
      (Secure.validateInput san JsValue.nullV).isValid = false ∧
      (Secure.validateInput san JsValue.undefV).isValid = false ∧
      (Secure.validateInput san JsValue.otherV).isValid = false) ∧
    (Server.validateInput (JsValue.str (("hello;world").toList))).isValid = true ∧
    (Server.validateInput JsValue.nullV).isValid = false ∧
    (Server.validateInput JsValue.undefV).isValid = false ∧
    (Server.validateInput JsValue.otherV).isValid = false := by
  exact ⟨fun san => ⟨rfl, rfl, rfl, rfl⟩, by decide, rfl, rfl, rfl⟩

end SSDSearch
